import Mathlib

/-!
Verification development for a small FastAPI backend (`src/main.py`) that
proxies a QuickBooks-style accounting API: an OAuth2 token store in a flat
file, a thin authenticated HTTP client, and seven request handlers that
reshape upstream JSON.

The Python code is shallowly embedded: JSON values are the inductive
`JValue`; Python dictionary operations (`d.get`, `d[k]`, `k in d`,
assignment) are explicit functions, fallible ones returning
`Except String _` where the Python operation can raise (for example
calling `.get` on `None`); the token file is an explicit `Option JValue`
threaded through; outbound HTTP traffic is an oracle function from the
request issued to the response received, and every handler returns the
list of outbound calls it performed alongside its JSON result.
-/

/-- JSON values, the data every handler consumes and produces.
Numbers are modelled as rationals (JSON literals are decimal). -/
inductive JValue where
  | null
  | bool (b : Bool)
  | num (q : ℚ)
  | str (s : String)
  | arr (elems : List JValue)
  | obj (fields : List (String × JValue))
  deriving Repr

mutual

/-- Equality test on JSON values, modelling Python `==` as used by
dictionary-key lookup in `customer_map.get(cust_id, {})`. -/
def JValue.beq : JValue → JValue → Bool
  | .null, .null => true
  | .bool a, .bool b => a == b
  | .num a, .num b => a == b
  | .str a, .str b => a == b
  | .arr xs, .arr ys => JValue.beqList xs ys
  | .obj xs, .obj ys => JValue.beqObj xs ys
  | _, _ => false

/-- Elementwise `JValue.beq` on lists. -/
def JValue.beqList : List JValue → List JValue → Bool
  | [], [] => true
  | x :: xs, y :: ys => JValue.beq x y && JValue.beqList xs ys
  | _, _ => false

/-- Fieldwise `JValue.beq` on object field lists. -/
def JValue.beqObj : List (String × JValue) → List (String × JValue) → Bool
  | [], [] => true
  | (k, v) :: xs, (l, w) :: ys => k == l && JValue.beq v w && JValue.beqObj xs ys
  | _, _ => false

end

/-- Key lookup in an object field list (first occurrence wins, as in a
Python dict built without duplicate keys). -/
def lookupKey : List (String × JValue) → String → Option JValue
  | [], _ => none
  | (k, v) :: rest, key => if k = key then some v else lookupKey rest key

/-- Python dictionary assignment `d[k] = v` on an object field list:
overwrite in place if the key exists, append otherwise. -/
def setKey : List (String × JValue) → String → JValue → List (String × JValue)
  | [], key, v => [(key, v)]
  | (k, w) :: rest, key, v =>
      if k = key then (key, v) :: rest else (k, w) :: setKey rest key v

/-- Python truthiness of a JSON value (`if x:` / `x or y`):
`None`, `False`, `0`, `""`, `[]` and `{}` are falsy. -/
def truthy : JValue → Bool
  | .null => false
  | .bool b => b
  | .num q => q != 0
  | .str s => s ≠ ""
  | .arr elems => !elems.isEmpty
  | .obj fields => !fields.isEmpty

/-- Python `a or b`: `a` if truthy, else `b`. -/
def pyOr (a b : JValue) : JValue := if truthy a then a else b

/-- Python `d.get(k)`: `None` when the key is absent; raises
`AttributeError` when the receiver is not a dict. -/
def pyGet (v : JValue) (key : String) : Except String JValue :=
  match v with
  | .obj fields => .ok ((lookupKey fields key).getD .null)
  | _ => .error "AttributeError: get"

/-- Python `d.get(k, default)`; raises when the receiver is not a dict. -/
def pyGetD (v : JValue) (key : String) (dflt : JValue) : Except String JValue :=
  match v with
  | .obj fields => .ok ((lookupKey fields key).getD dflt)
  | _ => .error "AttributeError: get"

/-- Python `d[k]`: `KeyError` when absent, `TypeError` when the receiver
is not subscriptable by a string key. -/
def pyIndex (v : JValue) (key : String) : Except String JValue :=
  match v with
  | .obj fields =>
      match lookupKey fields key with
      | some w => .ok w
      | none => .error "KeyError"
  | _ => .error "TypeError: subscript"

/-- Python `k in v` for a string `k`: key membership for dicts, element
membership for lists, substring test for strings, `TypeError` otherwise. -/
def pyContains (v : JValue) (key : String) : Except String Bool :=
  match v with
  | .obj fields => .ok (fields.any (fun p => p.1 = key))
  | .arr elems => .ok (elems.any (fun e => e.beq (.str key)))
  | .str s => .ok ((key.isPrefixOf s) || (s.splitOn key).length > 1)
  | _ => .error "TypeError: in"

/-- Python iteration `for x in v`: the elements of a list, the keys of a
dict, the characters of a string; `TypeError` otherwise. -/
def pyIter (v : JValue) : Except String (List JValue) :=
  match v with
  | .arr elems => .ok elems
  | .obj fields => .ok (fields.map (fun p => .str p.1))
  | .str s => .ok (s.toList.map (fun c => .str (String.mk [c])))
  | _ => .error "TypeError: iter"

/-- Lookup in a Python dict keyed by arbitrary JSON values, as built by
the comprehension in `customer_invoices`. -/
def mapLookup : List (JValue × JValue) → JValue → Option JValue
  | [], _ => none
  | (k, v) :: rest, key => if k.beq key then some v else mapLookup rest key

/-- Insertion into a Python dict keyed by JSON values: a later duplicate
key overwrites the earlier entry. -/
def mapSet : List (JValue × JValue) → JValue → JValue → List (JValue × JValue)
  | [], key, v => [(key, v)]
  | (k, w) :: rest, key, v =>
      if k.beq key then (key, v) :: rest else (k, w) :: mapSet rest key v

/-- A Python list comprehension `[f(x) for x in xs]` over fallible `f`:
apply left to right, the first raised exception aborting the whole
computation. -/
def mapMExcept (f : JValue → Except String JValue) : List JValue → Except String (List JValue)
  | [] => .ok []
  | x :: xs => do
      let y ← f x
      let ys ← mapMExcept f xs
      return (y :: ys)

/-- The dict comprehension `{c["Id"]: c for c in customers}`: indexing
raises `KeyError` on a record without `"Id"`; a later duplicate id
overwrites the earlier record. -/
def buildMap (acc : List (JValue × JValue)) : List JValue → Except String (List (JValue × JValue))
  | [] => .ok acc
  | c :: cs => do
      let i ← pyIndex c "Id"
      buildMap (mapSet acc i c) cs

/-- An HTTP response from the upstream service: `status_code` and raw body
`text` as in the `requests` library; `json` is the value `.json()` parses
the body to, carried alongside since the embedding does not model textual
JSON parsing. -/
structure HttpResponse where
  status_code : Nat
  text : String
  json : JValue

/-- One outbound HTTP request the backend can issue: a `query` POST or a
company-info GET through `QuickBooksClient`, or the invoice-creation POST
done directly by the create-invoice handler. The realm identifier is kept
as the JSON value interpolated into the URL. -/
inductive QBCall where
  | query (realm_id : JValue) (query_str : String)
  | companyInfo (realm_id : JValue)
  | createInvoice (realm_id : JValue) (payload : JValue)

/-- The network oracle: the response the upstream service returns to each
possible outbound request. -/
def Oracle : Type := QBCall → HttpResponse

/-- `save_tokens`: overwrite the token file with the record. The file is
modelled as `Option JValue` (`none` = file absent); writing the JSON
serialization and re-parsing it round-trips, so the file holds the value. -/
def save_tokens (tokens : JValue) (_file : Option JValue) : Option JValue :=
  some tokens

/-- `load_tokens`: the file content, or `{}` when the file does not exist
(`FileNotFoundError` is caught). -/
def load_tokens (file : Option JValue) : JValue :=
  file.getD (.obj [])

/-- `QuickBooksClient`: constructed from the access token and realm id
(both JSON values taken from the token record / environment). -/
structure QuickBooksClient where
  access_token : JValue
  realm_id : JValue

/-- The not-authenticated result every handler returns when no client is
available. -/
def errNotAuth : JValue :=
  .obj [("error", .str "No autenticado. Usa /connect y asegúrate de tener realmId")]

/-- `{"error": response.text}` as returned on upstream failure. -/
def errObj (t : String) : JValue := .obj [("error", .str t)]

/-- `get_qb_client`: read the token record, take `access_token` from it,
take the realm id from the record or else the `COMPANY_ID` environment
value (Python `or`, so a falsy stored realm id also falls through), and
return no client when either is falsy. `company_id` models `COMPANY_ID`
(`os.getenv`: a string, or null when unset). Raises if the token record is
not a dict. -/
def get_qb_client (tokens : JValue) (company_id : JValue) :
    Except String (Option QuickBooksClient) := do
  let access_token ← pyGet tokens "access_token"
  let realm_id := pyOr (← pyGet tokens "realmId") company_id
  if !truthy access_token || !truthy realm_id then
    return none
  return some ⟨access_token, realm_id⟩

/-- The `/customer-info` handler: company info GET, response shaped as
`{"status_code": ..., "data": ...}` where `data` is the parsed JSON on
status 200 and the raw body text otherwise. Returns its JSON result and
the list of outbound calls performed. -/
def customer_info (file : Option JValue) (company_id : JValue) (oracle : Oracle) :
    Except String (JValue × List QBCall) := do
  match ← get_qb_client (load_tokens file) company_id with
  | none => return (errNotAuth, [])
  | some qb =>
      let response := oracle (.companyInfo qb.realm_id)
      return (.obj [("status_code", .num response.status_code),
                    ("data", if response.status_code == 200
                             then response.json else .str response.text)],
              [.companyInfo qb.realm_id])

/-- The `/refresh` handler: reads `REFRESH_TOKEN` from the environment
(null when unset), POSTs to the token endpoint (`response` is the reply it
receives), and on status 200 persists the parsed response, first copying
`realmId` from the previously stored record when that record has the key.
Returns the handler result together with the token-file state after the
request. -/
def refresh_access_token (refresh_token : JValue) (file : Option JValue)
    (response : HttpResponse) : Except String (JValue × Option JValue) := do
  if !truthy refresh_token then
    return (.obj [("error", .str "No hay refresh_token en el entorno")], file)
  if response.status_code ≠ 200 then
    return (errObj response.text, file)
  let tokens := response.json
  let old_tokens := load_tokens file
  let tokens ←
    if ← pyContains old_tokens "realmId" then do
      let r ← pyIndex old_tokens "realmId"
      match tokens with
      | .obj fields => pure (JValue.obj (setKey fields "realmId" r))
      | _ => Except.error "TypeError: item assignment"
    else
      pure tokens
  return (.obj [("success", .bool true), ("tokens", tokens)], save_tokens tokens file)

/-- `extract_customer_fields` in `/customers`: the fixed six-field
projection of a customer record, missing fields defaulting to null. -/
def extract_customer_fields (cust : JValue) : Except String JValue := do
  return .obj [("Id", ← pyGet cust "Id"),
               ("DisplayName", ← pyGet cust "DisplayName"),
               ("PrimaryEmailAddr", ← pyGet cust "PrimaryEmailAddr"),
               ("PrimaryPhone", ← pyGet cust "PrimaryPhone"),
               ("CompanyName", ← pyGet cust "CompanyName"),
               ("Balance", ← pyGet cust "Balance")]

/-- The `/customers` handler: one `SELECT * FROM Customer` query, error
body surfaced on non-200, otherwise the projected customer list. -/
def get_customers (file : Option JValue) (company_id : JValue) (oracle : Oracle) :
    Except String (JValue × List QBCall) := do
  match ← get_qb_client (load_tokens file) company_id with
  | none => return (errNotAuth, [])
  | some qb =>
      let call := QBCall.query qb.realm_id "SELECT * FROM Customer"
      let response := oracle call
      if response.status_code ≠ 200 then
        return (errObj response.text, [call])
      let customers ← pyIter (← pyGetD (← pyGetD response.json "QueryResponse" (.obj []))
                                "Customer" (.arr []))
      let filtered ← mapMExcept extract_customer_fields customers
      return (.obj [("customers", .arr filtered)], [call])

/-- `extract_invoice_fields` in `/invoices`: the fixed ten-field
projection of an invoice record. -/
def extract_invoice_fields (inv : JValue) : Except String JValue := do
  return .obj [("Id", ← pyGet inv "Id"),
               ("DocNumber", ← pyGet inv "DocNumber"),
               ("CustomerRef", ← pyGet inv "CustomerRef"),
               ("BillEmail", ← pyGet inv "BillEmail"),
               ("TxnDate", ← pyGet inv "TxnDate"),
               ("DueDate", ← pyGet inv "DueDate"),
               ("Line", ← pyGet inv "Line"),
               ("TxnTaxDetail", ← pyGet inv "TxnTaxDetail"),
               ("TotalAmt", ← pyGet inv "TotalAmt"),
               ("Balance", ← pyGet inv "Balance")]

/-- The `/invoices` handler: one `SELECT * FROM Invoice` query, error body
surfaced on non-200, otherwise the projected invoice list. -/
def get_invoices (file : Option JValue) (company_id : JValue) (oracle : Oracle) :
    Except String (JValue × List QBCall) := do
  match ← get_qb_client (load_tokens file) company_id with
  | none => return (errNotAuth, [])
  | some qb =>
      let call := QBCall.query qb.realm_id "SELECT * FROM Invoice"
      let response := oracle call
      if response.status_code ≠ 200 then
        return (errObj response.text, [call])
      let invoices ← pyIter (← pyGetD (← pyGetD response.json "QueryResponse" (.obj []))
                               "Invoice" (.arr []))
      let filtered ← mapMExcept extract_invoice_fields invoices
      return (.obj [("invoices", .arr filtered)], [call])

/-- One arm of the `if "K" in inv and inv["K"]:` chain computing the
location of sale: when the container `key` is present and truthy, the
location is its `field` entry via `.get`; otherwise fall through. -/
def locationTry (inv : JValue) (key field : String)
    (fallback : Except String JValue) : Except String JValue := do
  if ← pyContains inv key then
    let c ← pyIndex inv key
    if truthy c then pyGet c field else fallback
  else fallback

/-- The location-of-sale computation of `/customer-invoices`:
`ShipAddr` / `City`, elif `LocationRef` / `name`, elif
`SalesTermRef` / `name`, else the initial `None`. -/
def location_of_sale (inv : JValue) : Except String JValue :=
  locationTry inv "ShipAddr" "City"
    (locationTry inv "LocationRef" "name"
      (locationTry inv "SalesTermRef" "name" (.ok .null)))

/-- The per-line projection in `/customer-invoices`:
`detail = line.get("SalesItemLineDetail", {})`, then the
`{type, name, qty, rate, amount}` dict, in source evaluation order. -/
def project_line (line : JValue) : Except String JValue := do
  let detail ← pyGetD line "SalesItemLineDetail" (.obj [])
  let t ← pyGet line "DetailType"
  let itemRef ← pyGetD detail "ItemRef" (.obj [])
  let name ← pyGet itemRef "name"
  let qty ← pyGet detail "Qty"
  let rate ← pyGet detail "UnitPrice"
  let amount ← pyGet line "Amount"
  return .obj [("type", t), ("name", name), ("qty", qty),
               ("rate", rate), ("amount", amount)]

/-- The loop body of `/customer-invoices` for one invoice: resolve the
customer through the id lookup (missing hit gives `{}`), compute the
location of sale, project the lines, and build the result row, in source
evaluation order. -/
def invoice_row (customer_map : List (JValue × JValue)) (inv : JValue) :
    Except String JValue := do
  let cust_ref ← pyGetD inv "CustomerRef" (.obj [])
  let cust_id ← pyGet cust_ref "value"
  let customer := (mapLookup customer_map cust_id).getD (.obj [])
  let location ← location_of_sale inv
  let lines ← pyIter (← pyGetD inv "Line" (.arr []))
  let invoice_lines ← mapMExcept project_line lines
  let displayName ← pyGet customer "DisplayName"
  let email ← pyGet (← pyGetD customer "PrimaryEmailAddr" (.obj [])) "Address"
  let txnDate ← pyGet inv "TxnDate"
  let dueDate ← pyGet inv "DueDate"
  let docNumber ← pyGet inv "DocNumber"
  return .obj [("customer", displayName),
               ("customer_email", email),
               ("invoice_date", txnDate),
               ("invoice_due_date", dueDate),
               ("location_of_sale", location),
               ("invoice_no", docNumber),
               ("lines", .arr invoice_lines)]

/-- The `/customer-invoices` handler: query customers, build the id →
customer dict (`c["Id"]` raises on a record without the key), query
invoices, and map every invoice through `invoice_row`. -/
def customer_invoices (file : Option JValue) (company_id : JValue) (oracle : Oracle) :
    Except String (JValue × List QBCall) := do
  match ← get_qb_client (load_tokens file) company_id with
  | none => return (errNotAuth, [])
  | some qb =>
      let custCall := QBCall.query qb.realm_id
        "SELECT Id, DisplayName, PrimaryEmailAddr FROM Customer"
      let cust_resp := oracle custCall
      if cust_resp.status_code ≠ 200 then
        return (errObj cust_resp.text, [custCall])
      let customers ← pyIter (← pyGetD (← pyGetD cust_resp.json "QueryResponse" (.obj []))
                                "Customer" (.arr []))
      let customer_map ← buildMap [] customers
      let invCall := QBCall.query qb.realm_id "SELECT * FROM Invoice"
      let inv_resp := oracle invCall
      if inv_resp.status_code ≠ 200 then
        return (errObj inv_resp.text, [custCall, invCall])
      let invoices ← pyIter (← pyGetD (← pyGetD inv_resp.json "QueryResponse" (.obj []))
                               "Invoice" (.arr []))
      let result ← mapMExcept (invoice_row customer_map) invoices
      return (.obj [("customer_invoices", .arr result)], [custCall, invCall])

/-- `extract_item_fields` in `/inventory`: the fixed seven-field
projection of an inventory item. -/
def extract_item_fields (item : JValue) : Except String JValue := do
  return .obj [("Id", ← pyGet item "Id"),
               ("Name", ← pyGet item "Name"),
               ("Sku", ← pyGet item "Sku"),
               ("QtyOnHand", ← pyGet item "QtyOnHand"),
               ("UnitPrice", ← pyGet item "UnitPrice"),
               ("Type", ← pyGet item "Type"),
               ("Active", ← pyGet item "Active")]

/-- The `/inventory` handler: one inventory-item query, error body
surfaced on non-200, otherwise the projected item list. -/
def get_inventory (file : Option JValue) (company_id : JValue) (oracle : Oracle) :
    Except String (JValue × List QBCall) := do
  match ← get_qb_client (load_tokens file) company_id with
  | none => return (errNotAuth, [])
  | some qb =>
      let call := QBCall.query qb.realm_id "SELECT * FROM Item WHERE Type = \x27Inventory\x27"
      let response := oracle call
      if response.status_code ≠ 200 then
        return (errObj response.text, [call])
      let items ← pyIter (← pyGetD (← pyGetD response.json "QueryResponse" (.obj []))
                            "Item" (.arr []))
      let filtered ← mapMExcept extract_item_fields items
      return (.obj [("inventory", .arr filtered)], [call])

/-- The pydantic `InvoiceLineDetail` model: required `Amount : float` and
`DetailType : str`, optional `SalesItemLineDetail` dict (pydantic v1
`Optional` defaults to `None`). -/
structure InvoiceLineDetail where
  Amount : ℚ
  DetailType : String
  SalesItemLineDetail : Option (List (String × JValue))

/-- The pydantic `InvoiceCreateModel`: required `CustomerRef` dict and
`Line` list, optional `BillEmail`, `TxnDate`, `DueDate`. -/
structure InvoiceCreateModel where
  CustomerRef : List (String × JValue)
  Line : List InvoiceLineDetail
  BillEmail : Option (List (String × JValue))
  TxnDate : Option String
  DueDate : Option String

/-- Schema validation of one line item: `Amount` must be present and a
number, `DetailType` present and a string, `SalesItemLineDetail` a dict
when given (absent or null become `None`). Mistyped-scalar coercions of
pydantic are not modelled; the claims only involve missing fields. -/
def parseLineDetail (v : JValue) : Option InvoiceLineDetail :=
  match v with
  | .obj fields => do
      let a ← match lookupKey fields "Amount" with
              | some (.num q) => some q
              | _ => none
      let d ← match lookupKey fields "DetailType" with
              | some (.str s) => some s
              | _ => none
      let s ← match lookupKey fields "SalesItemLineDetail" with
              | some (.obj kvs) => some (some kvs)
              | some .null => some none
              | none => some none
              | some _ => none
      some ⟨a, d, s⟩
  | _ => none

/-- Validation of the `Line` list: every element must be a valid line
item. -/
def parseLines : List JValue → Option (List InvoiceLineDetail)
  | [] => some []
  | x :: xs => do
      let l ← parseLineDetail x
      let rest ← parseLines xs
      some (l :: rest)

/-- Schema validation of the request body against `InvoiceCreateModel`:
`CustomerRef` must be present and a dict, `Line` present and a list of
valid line items; the three optional fields accept absent or null; extra
body fields are ignored (pydantic default). `none` means the request is
rejected with a validation error before the handler runs. -/
def parseInvoiceCreate (v : JValue) : Option InvoiceCreateModel :=
  match v with
  | .obj fields => do
      let cr ← match lookupKey fields "CustomerRef" with
               | some (.obj kvs) => some kvs
               | _ => none
      let rawLines ← match lookupKey fields "Line" with
                     | some (.arr elems) => some elems
                     | _ => none
      let lns ← parseLines rawLines
      let be ← match lookupKey fields "BillEmail" with
               | some (.obj kvs) => some (some kvs)
               | some .null => some none
               | none => some none
               | some _ => none
      let td ← match lookupKey fields "TxnDate" with
               | some (.str s) => some (some s)
               | some .null => some none
               | none => some none
               | some _ => none
      let dd ← match lookupKey fields "DueDate" with
               | some (.str s) => some (some s)
               | some .null => some none
               | none => some none
               | some _ => none
      some ⟨cr, lns, be, td, dd⟩
  | _ => none

/-- `invoice_data.dict(exclude_none=True)` on a line item: `None` fields
are omitted, recursively. -/
def lineDetailDict (l : InvoiceLineDetail) : JValue :=
  .obj ([("Amount", .num l.Amount), ("DetailType", .str l.DetailType)] ++
        (match l.SalesItemLineDetail with
         | some kvs => [("SalesItemLineDetail", JValue.obj kvs)]
         | none => []))

/-- `invoice_data.dict(exclude_none=True)` on the whole model. -/
def invoiceCreateDict (m : InvoiceCreateModel) : JValue :=
  .obj ([("CustomerRef", .obj m.CustomerRef),
         ("Line", .arr (m.Line.map lineDetailDict))] ++
        (match m.BillEmail with
         | some kvs => [("BillEmail", JValue.obj kvs)]
         | none => []) ++
        (match m.TxnDate with
         | some s => [("TxnDate", JValue.str s)]
         | none => []) ++
        (match m.DueDate with
         | some s => [("DueDate", JValue.str s)]
         | none => []))

/-- The `/create-invoice` handler body, given an already-validated model:
POST the serialized model to the invoice resource; statuses other than 200
and 201 surface the raw error body; success returns the parsed provider
response unmodified. -/
def create_invoice (invoice_data : InvoiceCreateModel) (file : Option JValue)
    (company_id : JValue) (oracle : Oracle) : Except String (JValue × List QBCall) := do
  match ← get_qb_client (load_tokens file) company_id with
  | none => return (errNotAuth, [])
  | some qb =>
      let call := QBCall.createInvoice qb.realm_id (invoiceCreateDict invoice_data)
      let response := oracle call
      if response.status_code ≠ 200 && response.status_code ≠ 201 then
        return (errObj response.text, [call])
      return (response.json, [call])

/-- A route outcome: either the framework rejected the body with a
validation error (HTTP 422, handler never entered) or the handler
produced a JSON reply. -/
inductive EndpointReply where
  | invalid
  | body (v : JValue)

/-- The full `POST /create-invoice` route: FastAPI validates the raw body
against `InvoiceCreateModel` before the handler runs; an invalid body is
rejected with no outbound call. -/
def create_invoice_route (raw : JValue) (file : Option JValue)
    (company_id : JValue) (oracle : Oracle) :
    Except String (EndpointReply × List QBCall) :=
  match parseInvoiceCreate raw with
  | none => .ok (.invalid, [])
  | some m => do
      let (v, calls) ← create_invoice m file company_id oracle
      return (.body v, calls)

/-- Third choice of the spec-worded location resolution:
`SalesTermRef.name`, else null. -/
def claimedFallback2 (fields : List (String × JValue)) : JValue :=
  match (lookupKey fields "SalesTermRef").bind
          (fun s => match s with
                    | .obj kvs => lookupKey kvs "name"
                    | _ => none) with
  | some c => if truthy c then c else .null
  | none => .null

/-- Second choice of the spec-worded location resolution:
`LocationRef.name`, else the sales-term fallback. -/
def claimedFallback1 (fields : List (String × JValue)) : JValue :=
  match (lookupKey fields "LocationRef").bind
          (fun s => match s with
                    | .obj kvs => lookupKey kvs "name"
                    | _ => none) with
  | some c => if truthy c then c else claimedFallback2 fields
  | none => claimedFallback2 fields

/-- The location-of-sale resolution as the specification words it: the
first non-empty value among `ShipAddr.City`, `LocationRef.name`,
`SalesTermRef.name`, else null. Stated from the spec for comparison with
the code's `location_of_sale`. -/
def claimedLocationOfSale (fields : List (String × JValue)) : JValue :=
  match (lookupKey fields "ShipAddr").bind
          (fun s => match s with
                    | .obj kvs => lookupKey kvs "City"
                    | _ => none) with
  | some c => if truthy c then c else claimedFallback1 fields
  | none => claimedFallback1 fields

/-- The generic shape of the three projection helpers: for each known key
in order, pair it with the input's value for that key, null when absent. -/
def projectFields (keys : List String) (fields : List (String × JValue)) :
    List (String × JValue) :=
  keys.map (fun k => (k, (lookupKey fields k).getD .null))

/-- The known keys of the `/customers` projection. -/
def customerKeys : List String :=
  ["Id", "DisplayName", "PrimaryEmailAddr", "PrimaryPhone", "CompanyName", "Balance"]

/-- The known keys of the `/invoices` projection. -/
def invoiceKeys : List String :=
  ["Id", "DocNumber", "CustomerRef", "BillEmail", "TxnDate", "DueDate",
   "Line", "TxnTaxDetail", "TotalAmt", "Balance"]

/-- The known keys of the `/inventory` projection. -/
def itemKeys : List String :=
  ["Id", "Name", "Sku", "QtyOnHand", "UnitPrice", "Type", "Active"]

/-- An oracle answering the two query calls of `/customer-invoices`: the
invoice query gets `invResp`, any other query gets `custResp`. -/
def queryOracle (custResp invResp : HttpResponse) : Oracle := fun c =>
  match c with
  | .query _ q => if q = "SELECT * FROM Invoice" then invResp else custResp
  | _ => ⟨500, "", .null⟩

/-- An invoice whose `ShipAddr` is present and non-empty but has no
`City`, while `LocationRef.name` is present: the claim's first-non-empty
reading would resolve `"Y"`, the code resolves null. -/
def c2ShipNoCity : List (String × JValue) :=
  [("ShipAddr", .obj [("Line1", .str "A")]), ("LocationRef", .obj [("name", .str "Y")])]

/-- Upstream responses for the C2 counterexample run: an empty customer
list and the single invoice `c2ShipNoCity`. -/
def c2Oracle : Oracle := fun c =>
  match c with
  | .query _ q =>
      if q = "SELECT * FROM Invoice" then
        ⟨200, "", .obj [("QueryResponse", .obj [("Invoice", .arr [.obj c2ShipNoCity])])]⟩
      else
        ⟨200, "", .obj [("QueryResponse", .obj [("Customer", .arr [])])]⟩
  | _ => ⟨500, "", .null⟩

/-- Whether an object field is present with a truthy value: the guard the
location-of-sale chain actually branches on. -/
def presentTruthy (fields : List (String × JValue)) (key : String) : Bool :=
  match lookupKey fields key with
  | some v => truthy v
  | none => false

/-- `pure` in the exception monad is a success. -/
lemma exceptPure {ε α : Type} (a : α) : (pure a : Except ε α) = .ok a := rfl

/-- Sequencing a successful step. -/
lemma exceptOkBind {ε α β : Type} (a : α) (f : α → Except ε β) :
    Bind.bind (Except.ok a) f = f a := rfl

/-- Sequencing after a raised exception propagates the exception. -/
lemma exceptErrorBind {ε α β : Type} (e : ε) (f : α → Except ε β) :
    Bind.bind (Except.error e : Except ε α) f = .error e := rfl

/-- Mapping over a successful step. -/
lemma exceptOkMap {ε α β : Type} (a : α) (f : α → β) :
    (f <$> (Except.ok a : Except ε α)) = Except.ok (f a) := rfl

/-- `.get` on a dict never raises. -/
lemma pyGet_obj (fields : List (String × JValue)) (k : String) :
    pyGet (.obj fields) k = .ok ((lookupKey fields k).getD .null) := rfl

/-- `.get` with default on a dict never raises. -/
lemma pyGetD_obj (fields : List (String × JValue)) (k : String) (d : JValue) :
    pyGetD (.obj fields) k d = .ok ((lookupKey fields k).getD d) := rfl

/-- Key-presence test agrees with `lookupKey` success. -/
lemma any_key_eq_lookup_isSome (fields : List (String × JValue)) (key : String) :
    fields.any (fun p => p.1 = key) = (lookupKey fields key).isSome := by
  induction fields with
  | nil => rfl
  | cons p rest ih =>
      obtain ⟨k, v⟩ := p
      by_cases h : k = key <;> simp [lookupKey, h, ih]

/-- Lookup after Python dict assignment: the assigned key reads back the
new value, every other key is untouched. -/
lemma lookupKey_setKey (fields : List (String × JValue)) (key k : String) (v : JValue) :
    lookupKey (setKey fields key v) k =
      if k = key then some v else lookupKey fields k := by
  induction fields with
  | nil =>
      by_cases h : k = key
      · simp [setKey, lookupKey, h]
      · simp [setKey, lookupKey, h, Ne.symm h]
  | cons p rest ih =>
      obtain ⟨k1, v1⟩ := p
      by_cases h1 : k1 = key
      · subst h1
        by_cases h2 : k = k1
        · simp [setKey, lookupKey, h2]
        · simp [setKey, lookupKey, h2, Ne.symm h2]
      · by_cases h2 : k = k1
        · subst h2
          simp [setKey, lookupKey, h1]
        · simp [setKey, lookupKey, h1, h2, Ne.symm h2, ih]

/-- C1: on a 200 token-endpoint response, the refresh handler persists the
provider JSON; when the previously stored record has a `realmId` key that
value is copied into the new record before saving (every other key reads
as in the provider response), and with no prior record or no `realmId`
key the persisted record is exactly the provider response. -/
theorem claim_C1 :
    (∀ (rt : JValue) (resp : HttpResponse) (newF oldF : List (String × JValue)) (r : JValue),
      truthy rt = true → resp.status_code = 200 → resp.json = .obj newF →
      lookupKey oldF "realmId" = some r →
      refresh_access_token rt (some (.obj oldF)) resp =
        .ok (.obj [("success", .bool true), ("tokens", .obj (setKey newF "realmId" r))],
             some (.obj (setKey newF "realmId" r))) ∧
      ∀ k, lookupKey (setKey newF "realmId" r) k =
             if k = "realmId" then some r else lookupKey newF k) ∧
    (∀ (rt : JValue) (resp : HttpResponse) (newF oldF : List (String × JValue)),
      truthy rt = true → resp.status_code = 200 → resp.json = .obj newF →
      lookupKey oldF "realmId" = none →
      refresh_access_token rt (some (.obj oldF)) resp =
        .ok (.obj [("success", .bool true), ("tokens", .obj newF)], some (.obj newF))) ∧
    (∀ (rt : JValue) (resp : HttpResponse) (newF : List (String × JValue)),
      truthy rt = true → resp.status_code = 200 → resp.json = .obj newF →
      refresh_access_token rt none resp =
        .ok (.obj [("success", .bool true), ("tokens", .obj newF)], some (.obj newF))) := by
  refine ⟨?_, ?_, ?_⟩
  · intro rt resp newF oldF r h1 h2 h3 h4
    refine ⟨?_, fun k => lookupKey_setKey newF "realmId" k r⟩
    simp [refresh_access_token, load_tokens, save_tokens, pyContains, pyIndex,
          any_key_eq_lookup_isSome, h1, h2, h3, h4]
    rfl
  · intro rt resp newF oldF h1 h2 h3 h4
    simp [refresh_access_token, load_tokens, save_tokens, pyContains,
          any_key_eq_lookup_isSome, h1, h2, h3, h4]
    rfl
  · intro rt resp newF h1 h2 h3
    simp [refresh_access_token, load_tokens, save_tokens, pyContains, lookupKey,
          h1, h2, h3]
    rfl

/-- Concrete instance of `claim_C1`: realm id `"123"` survives a refresh
that replaces the access token; with no token file the provider response
is stored as is. -/
theorem claim_C1_witness :
    refresh_access_token (.str "rt")
        (some (.obj [("realmId", .str "123"), ("access_token", .str "old")]))
        ⟨200, "", .obj [("access_token", .str "new")]⟩ =
      .ok (.obj [("success", .bool true),
                 ("tokens", .obj [("access_token", .str "new"), ("realmId", .str "123")])],
           some (.obj [("access_token", .str "new"), ("realmId", .str "123")])) ∧
    refresh_access_token (.str "rt") none ⟨200, "", .obj [("access_token", .str "new")]⟩ =
      .ok (.obj [("success", .bool true), ("tokens", .obj [("access_token", .str "new")])],
           some (.obj [("access_token", .str "new")])) := by
  constructor
  · exact (claim_C1.1 (.str "rt") ⟨200, "", .obj [("access_token", .str "new")]⟩
      [("access_token", .str "new")] [("realmId", .str "123"), ("access_token", .str "old")]
      (.str "123") (by decide) rfl rfl (by simp [lookupKey])).1
  · exact claim_C1.2.2 (.str "rt") ⟨200, "", .obj [("access_token", .str "new")]⟩
      [("access_token", .str "new")] (by decide) rfl rfl

/-- C8: the token store is a full overwrite — `load` after `save r`
returns exactly `r` — and `load` with no token file returns the empty
mapping rather than raising. -/
theorem claim_C8 :
    (∀ (r : JValue) (file : Option JValue), load_tokens (save_tokens r file) = r) ∧
    load_tokens none = .obj [] :=
  ⟨fun _ _ => rfl, rfl⟩

/-- `get_qb_client` on a dict-shaped token record, written out: the
client exists unless the access token or the resolved realm id is falsy. -/
lemma get_qb_client_obj (fields : List (String × JValue)) (cid : JValue) :
    get_qb_client (.obj fields) cid =
      if !truthy ((lookupKey fields "access_token").getD .null)
         || !truthy (pyOr ((lookupKey fields "realmId").getD .null) cid) then
        .ok none
      else
        .ok (some ⟨(lookupKey fields "access_token").getD .null,
                   pyOr ((lookupKey fields "realmId").getD .null) cid⟩) := rfl

/-- Null is falsy. -/
lemma truthy_null : truthy .null = false := rfl

/-- C9: with a usable (truthy) `access_token` and no stored `realmId`
key, `get_qb_client` still returns a client whose realm is the
`COMPANY_ID` environment value when that is set; and it returns the
no-client outcome exactly when the access token is unusable or both the
stored realm id and `COMPANY_ID` are unusable. -/
theorem claim_C9 :
    (∀ (fields : List (String × JValue)) (cid : JValue),
      truthy ((lookupKey fields "access_token").getD .null) = true →
      lookupKey fields "realmId" = none →
      truthy cid = true →
      get_qb_client (.obj fields) cid =
        .ok (some ⟨(lookupKey fields "access_token").getD .null, cid⟩)) ∧
    (∀ (fields : List (String × JValue)) (cid : JValue),
      get_qb_client (.obj fields) cid = .ok none ↔
        (truthy ((lookupKey fields "access_token").getD .null) = false ∨
         (truthy ((lookupKey fields "realmId").getD .null) = false ∧
          truthy cid = false))) := by
  constructor
  · intro fields cid h1 h2 h3
    simp [get_qb_client_obj, pyOr, truthy_null, h1, h2, h3]
  · intro fields cid
    cases ha : truthy ((lookupKey fields "access_token").getD .null) <;>
      cases hr : truthy ((lookupKey fields "realmId").getD .null) <;>
        cases hc : truthy cid <;>
          simp [get_qb_client_obj, pyOr, ha, hr, hc]

/-- Concrete instance of `claim_C9`: a record holding only an access
token yields a client for realm `COMPANY_ID = "CID"`, and yields no
client when `COMPANY_ID` is unset. -/
theorem claim_C9_witness :
    get_qb_client (.obj [("access_token", .str "tok")]) (.str "CID") =
      .ok (some ⟨.str "tok", .str "CID"⟩) ∧
    get_qb_client (.obj [("access_token", .str "tok")]) .null = .ok none :=
  ⟨claim_C9.1 [("access_token", .str "tok")] (.str "CID") (by decide) rfl (by decide),
   (claim_C9.2 [("access_token", .str "tok")] .null).mpr
     (Or.inr ⟨by decide, by decide⟩)⟩

/-- C4: when the token store has no record, each of the six data-fetch
handlers returns the explicit not-authenticated message and performs zero
outbound calls — for `/create-invoice` this holds for every payload that
passes schema validation. -/
theorem claim_C4 :
    (∀ (cid : JValue) (oracle : Oracle),
      customer_info none cid oracle = .ok (errNotAuth, [])) ∧
    (∀ (cid : JValue) (oracle : Oracle),
      get_customers none cid oracle = .ok (errNotAuth, [])) ∧
    (∀ (cid : JValue) (oracle : Oracle),
      get_invoices none cid oracle = .ok (errNotAuth, [])) ∧
    (∀ (cid : JValue) (oracle : Oracle),
      customer_invoices none cid oracle = .ok (errNotAuth, [])) ∧
    (∀ (cid : JValue) (oracle : Oracle),
      get_inventory none cid oracle = .ok (errNotAuth, [])) ∧
    (∀ (m : InvoiceCreateModel) (cid : JValue) (oracle : Oracle),
      create_invoice m none cid oracle = .ok (errNotAuth, [])) := by
  exact ⟨fun cid oracle => rfl, fun cid oracle => rfl, fun cid oracle => rfl,
         fun cid oracle => rfl, fun cid oracle => rfl, fun m cid oracle => rfl⟩

/-- C3 counterexample: with a valid client, an upstream 404 with body
`"nope"` makes `/customer-info` reply
`{"status_code": 404, "data": "nope"}` — an object with no `"error"` key
at all, contradicting the claimed `{error: <raw body>}` shape. -/
theorem claim_C3_counterexample :
    customer_info (some (.obj [("access_token", .str "tok"), ("realmId", .str "R")]))
        .null (fun _ => ⟨404, "nope", .null⟩) =
      .ok (.obj [("status_code", .num (404 : ℕ)), ("data", .str "nope")],
           [.companyInfo (.str "R")]) ∧
    lookupKey [("status_code", .num (404 : ℕ)), ("data", .str "nope")] "error" = none :=
  ⟨rfl, rfl⟩

/-- C3 amended: whenever a client is available, `/customer-info` replies
`{"status_code": s, "data": d}` where `s` is the upstream status and `d`
is the parsed JSON body on status 200 and the raw body text otherwise;
no `error` key and no status-code translation is involved. -/
theorem claim_C3 :
    ∀ (file : Option JValue) (cid : JValue) (oracle : Oracle) (qb : QuickBooksClient),
      get_qb_client (load_tokens file) cid = .ok (some qb) →
      customer_info file cid oracle =
        .ok (.obj [("status_code", .num (oracle (.companyInfo qb.realm_id)).status_code),
                   ("data", if (oracle (.companyInfo qb.realm_id)).status_code == 200
                            then (oracle (.companyInfo qb.realm_id)).json
                            else .str (oracle (.companyInfo qb.realm_id)).text)],
             [.companyInfo qb.realm_id]) := by
  intro file cid oracle qb h
  simp [customer_info, h]
  rfl

/-- Concrete instance of `claim_C3`: a 200 upstream response is passed
through as parsed JSON under `data`. -/
theorem claim_C3_witness :
    customer_info (some (.obj [("access_token", .str "tok"), ("realmId", .str "R")]))
        .null (fun _ => ⟨200, "{}", .obj [("CompanyInfo", .str "ok")]⟩) =
      .ok (.obj [("status_code", .num (200 : ℕ)),
                 ("data", .obj [("CompanyInfo", .str "ok")])],
           [.companyInfo (.str "R")]) :=
  claim_C3 (some (.obj [("access_token", .str "tok"), ("realmId", .str "R")]))
    .null (fun _ => ⟨200, "{}", .obj [("CompanyInfo", .str "ok")]⟩)
    ⟨.str "tok", .str "R"⟩ rfl

/-- C2 counterexample: on the invoice `c2ShipNoCity` the handler emits
`location_of_sale: null`, while the claimed first-non-empty-value rule
resolves the `LocationRef` name `"Y"`; the chain falls back on the
presence/truthiness of the container, not on the extracted value. -/
theorem claim_C2_counterexample :
    customer_invoices (some (.obj [("access_token", .str "tok"), ("realmId", .str "R")]))
        .null c2Oracle =
      .ok (.obj [("customer_invoices", .arr
             [.obj [("customer", .null), ("customer_email", .null),
                    ("invoice_date", .null), ("invoice_due_date", .null),
                    ("location_of_sale", .null), ("invoice_no", .null),
                    ("lines", .arr [])]])],
           [.query (.str "R") "SELECT Id, DisplayName, PrimaryEmailAddr FROM Customer",
            .query (.str "R") "SELECT * FROM Invoice"]) ∧
    claimedLocationOfSale c2ShipNoCity = .str "Y" ∧
    JValue.null ≠ JValue.str "Y" :=
  ⟨rfl, rfl, fun h => JValue.noConfusion h⟩

/-- One chain arm, written without the monadic plumbing. -/
lemma locationTry_obj (fields : List (String × JValue)) (key field : String)
    (fb : Except String JValue) :
    locationTry (.obj fields) key field fb =
      match lookupKey fields key with
      | some c => if truthy c then pyGet c field else fb
      | none => fb := by
  cases h : lookupKey fields key with
  | none =>
      simp [locationTry, pyContains, any_key_eq_lookup_isSome, h]
      rfl
  | some s =>
      simp [locationTry, pyContains, pyIndex, any_key_eq_lookup_isSome, h]
      rfl

/-- C2 amended: the `/customer-invoices` location of sale checks the
three container fields in the fixed order ShipAddr, LocationRef,
SalesTermRef, selecting the first that is present with a truthy value;
the selected container alone determines the result as its `City` /
`name` lookup — possibly null, with no further fallback — and when no
container qualifies the location is null. -/
theorem claim_C2 (fields : List (String × JValue)) :
    (∀ s, lookupKey fields "ShipAddr" = some s → truthy s = true →
      location_of_sale (.obj fields) = pyGet s "City") ∧
    (presentTruthy fields "ShipAddr" = false →
      ∀ l, lookupKey fields "LocationRef" = some l → truthy l = true →
        location_of_sale (.obj fields) = pyGet l "name") ∧
    (presentTruthy fields "ShipAddr" = false →
      presentTruthy fields "LocationRef" = false →
      ∀ t, lookupKey fields "SalesTermRef" = some t → truthy t = true →
        location_of_sale (.obj fields) = pyGet t "name") ∧
    (presentTruthy fields "ShipAddr" = false →
      presentTruthy fields "LocationRef" = false →
      presentTruthy fields "SalesTermRef" = false →
      location_of_sale (.obj fields) = .ok .null) := by
  refine ⟨?_, ?_, ?_, ?_⟩
  · intro s hs ht
    rw [location_of_sale, locationTry_obj, hs]
    simp [ht]
  · intro hship l hl ht
    rw [location_of_sale, locationTry_obj, locationTry_obj, hl]
    cases hs : lookupKey fields "ShipAddr" with
    | none => simp [ht]
    | some s =>
        have : truthy s = false := by
          have := hship
          rw [presentTruthy, hs] at this
          exact this
        simp [this, ht]
  · intro hship hloc t hb ht
    rw [location_of_sale, locationTry_obj, locationTry_obj, locationTry_obj, hb]
    have hs' : ∀ s, lookupKey fields "ShipAddr" = some s → truthy s = false := by
      intro s hs
      have := hship
      rw [presentTruthy, hs] at this
      exact this
    have hl' : ∀ l, lookupKey fields "LocationRef" = some l → truthy l = false := by
      intro l hl
      have := hloc
      rw [presentTruthy, hl] at this
      exact this
    cases hs : lookupKey fields "ShipAddr" with
    | none =>
        cases hl : lookupKey fields "LocationRef" with
        | none => simp [ht]
        | some l => simp [hl' l hl, ht]
    | some s =>
        cases hl : lookupKey fields "LocationRef" with
        | none => simp [hs' s hs, ht]
        | some l => simp [hs' s hs, hl' l hl, ht]
  · intro hship hloc hterm
    rw [location_of_sale, locationTry_obj, locationTry_obj, locationTry_obj]
    have hs' : ∀ s, lookupKey fields "ShipAddr" = some s → truthy s = false := by
      intro s hs; have := hship; rw [presentTruthy, hs] at this; exact this
    have hl' : ∀ l, lookupKey fields "LocationRef" = some l → truthy l = false := by
      intro l hl; have := hloc; rw [presentTruthy, hl] at this; exact this
    have ht' : ∀ t, lookupKey fields "SalesTermRef" = some t → truthy t = false := by
      intro t ht; have := hterm; rw [presentTruthy, ht] at this; exact this
    cases hs : lookupKey fields "ShipAddr" with
    | none =>
        cases hl : lookupKey fields "LocationRef" with
        | none =>
            cases hb : lookupKey fields "SalesTermRef" with
            | none => simp
            | some t => simp [ht' t hb]
        | some l =>
            cases hb : lookupKey fields "SalesTermRef" with
            | none => simp [hl' l hl]
            | some t => simp [hl' l hl, ht' t hb]
    | some s =>
        cases hl : lookupKey fields "LocationRef" with
        | none =>
            cases hb : lookupKey fields "SalesTermRef" with
            | none => simp [hs' s hs]
            | some t => simp [hs' s hs, ht' t hb]
        | some l =>
            cases hb : lookupKey fields "SalesTermRef" with
            | none => simp [hs' s hs, hl' l hl]
            | some t => simp [hs' s hs, hl' l hl, ht' t hb]

/-- Concrete instances of `claim_C2`, one per arm of the chain. -/
theorem claim_C2_witness :
    location_of_sale (.obj [("ShipAddr", .obj [("City", .str "X")]),
                            ("LocationRef", .obj [("name", .str "Y")])]) =
      .ok (.str "X") ∧
    location_of_sale (.obj [("LocationRef", .obj [("name", .str "Y")])]) =
      .ok (.str "Y") ∧
    location_of_sale (.obj [("SalesTermRef", .obj [("name", .str "Z")])]) =
      .ok (.str "Z") ∧
    location_of_sale (.obj []) = .ok .null :=
  ⟨(claim_C2 [("ShipAddr", .obj [("City", .str "X")]),
              ("LocationRef", .obj [("name", .str "Y")])]).1
      (.obj [("City", .str "X")]) rfl (by decide),
   (claim_C2 [("LocationRef", .obj [("name", .str "Y")])]).2.1 (by decide)
      (.obj [("name", .str "Y")]) rfl (by decide),
   (claim_C2 [("SalesTermRef", .obj [("name", .str "Z")])]).2.2.1 (by decide) (by decide)
      (.obj [("name", .str "Z")]) rfl (by decide),
   (claim_C2 []).2.2.2 (by decide) (by decide) (by decide)⟩

/-- Looking a key up in a projected record: the input's value (null when
absent) for a known key, absent for every other key. -/
lemma lookupKey_projectFields (keys : List String) (fields : List (String × JValue))
    (k : String) :
    lookupKey (projectFields keys fields) k =
      if k ∈ keys then some ((lookupKey fields k).getD .null) else none := by
  induction keys with
  | nil => simp [projectFields, lookupKey]
  | cons k1 rest ih =>
      by_cases h : k1 = k
      · subst h
        simp [projectFields, lookupKey]
      · simp only [projectFields, List.map_cons, lookupKey, h, if_false]
        simp only [projectFields] at ih
        rw [ih]
        simp [Ne.symm h]

/-- C5: each of the three projections emits exactly its fixed key set —
a known key carries the input's value with null for a missing field, and
any other input key (such as an extra `"Foo"`) is absent from the
output. -/
theorem claim_C5 :
    (∀ (fields : List (String × JValue)),
      extract_customer_fields (.obj fields) = .ok (.obj (projectFields customerKeys fields))) ∧
    (∀ (fields : List (String × JValue)),
      extract_invoice_fields (.obj fields) = .ok (.obj (projectFields invoiceKeys fields))) ∧
    (∀ (fields : List (String × JValue)),
      extract_item_fields (.obj fields) = .ok (.obj (projectFields itemKeys fields))) ∧
    (∀ (keys : List String) (fields : List (String × JValue)) (k : String),
      lookupKey (projectFields keys fields) k =
        if k ∈ keys then some ((lookupKey fields k).getD .null) else none) :=
  ⟨fun _ => rfl, fun _ => rfl, fun _ => rfl, lookupKey_projectFields⟩

/-- C6: an invoice whose customer reference resolves to no entry of the
customer lookup (including a missing `CustomerRef`, whose `.get` then
yields null) produces a row with `customer: null` and
`customer_email: null` instead of failing, its lines still projected;
and a line with no `SalesItemLineDetail` key projects to
`{type, name, qty, rate, amount}` with the nested fields null. -/
theorem claim_C6 :
    (∀ (cmap : List (JValue × JValue)) (fields : List (String × JValue))
       (cid loc : JValue) (lineVals : List JValue) (rows : List JValue),
      pyGet ((lookupKey fields "CustomerRef").getD (.obj [])) "value" = .ok cid →
      mapLookup cmap cid = none →
      location_of_sale (.obj fields) = .ok loc →
      pyIter ((lookupKey fields "Line").getD (.arr [])) = .ok lineVals →
      mapMExcept project_line lineVals = .ok rows →
      invoice_row cmap (.obj fields) =
        .ok (.obj [("customer", .null),
                   ("customer_email", .null),
                   ("invoice_date", (lookupKey fields "TxnDate").getD .null),
                   ("invoice_due_date", (lookupKey fields "DueDate").getD .null),
                   ("location_of_sale", loc),
                   ("invoice_no", (lookupKey fields "DocNumber").getD .null),
                   ("lines", .arr rows)])) ∧
    (∀ (lfields : List (String × JValue)),
      lookupKey lfields "SalesItemLineDetail" = none →
      project_line (.obj lfields) =
        .ok (.obj [("type", (lookupKey lfields "DetailType").getD .null),
                   ("name", .null), ("qty", .null), ("rate", .null),
                   ("amount", (lookupKey lfields "Amount").getD .null)])) := by
  constructor
  · intro cmap fields cid loc lineVals rows hcid hmap hloc hiter hrows
    simp [invoice_row, pyGetD_obj, pyGet_obj, lookupKey, exceptOkBind, exceptOkMap,
          hcid, hmap, hloc, hiter, hrows]
  · intro lfields h
    simp [project_line, pyGetD_obj, pyGet_obj, lookupKey, exceptOkBind, exceptOkMap, h]

/-- Concrete instance of `claim_C6`: an invoice referencing the unknown
customer id `"99"` against a lookup holding only id `"1"`, with one line
lacking `SalesItemLineDetail`. -/
theorem claim_C6_witness :
    invoice_row [(.str "1", .obj [("Id", .str "1"), ("DisplayName", .str "A")])]
        (.obj [("CustomerRef", .obj [("value", .str "99")]),
               ("Line", .arr [.obj [("DetailType", .str "D"), ("Amount", .num 5)]])]) =
      .ok (.obj [("customer", .null),
                 ("customer_email", .null),
                 ("invoice_date", .null),
                 ("invoice_due_date", .null),
                 ("location_of_sale", .null),
                 ("invoice_no", .null),
                 ("lines", .arr [.obj [("type", .str "D"), ("name", .null),
                                       ("qty", .null), ("rate", .null),
                                       ("amount", .num 5)]])]) ∧
    project_line (.obj [("DetailType", .str "D"), ("Amount", .num 5)]) =
      .ok (.obj [("type", .str "D"), ("name", .null), ("qty", .null),
                 ("rate", .null), ("amount", .num 5)]) :=
  ⟨claim_C6.1 [(.str "1", .obj [("Id", .str "1"), ("DisplayName", .str "A")])]
      [("CustomerRef", .obj [("value", .str "99")]),
       ("Line", .arr [.obj [("DetailType", .str "D"), ("Amount", .num 5)]])]
      (.str "99") .null [.obj [("DetailType", .str "D"), ("Amount", .num 5)]]
      [.obj [("type", .str "D"), ("name", .null), ("qty", .null),
             ("rate", .null), ("amount", .num 5)]]
      rfl rfl rfl rfl rfl,
   claim_C6.2 [("DetailType", .str "D"), ("Amount", .num 5)] rfl⟩

/-- A line item lacking `Amount` or lacking `DetailType` fails schema
validation. -/
lemma parseLineDetail_missing (lfields : List (String × JValue))
    (h : lookupKey lfields "Amount" = none ∨ lookupKey lfields "DetailType" = none) :
    parseLineDetail (.obj lfields) = none := by
  rcases h with h | h
  · simp [parseLineDetail, h]
  · cases ha : lookupKey lfields "Amount" with
    | none => simp [parseLineDetail, ha]
    | some v => cases v <;> simp [parseLineDetail, ha, h]

/-- A body whose `Line` list holds an invalid line item fails schema
validation as a whole. -/
lemma parseInvoiceCreate_badLine (bfields lfields : List (String × JValue))
    (hl : lookupKey bfields "Line" = some (.arr [.obj lfields]))
    (hbad : parseLineDetail (.obj lfields) = none) :
    parseInvoiceCreate (.obj bfields) = none := by
  cases hcr : lookupKey bfields "CustomerRef" with
  | none => simp [parseInvoiceCreate, hcr]
  | some v => cases v <;> simp [parseInvoiceCreate, parseLines, hcr, hl, hbad]

/-- C7: a body with no `CustomerRef` key, or with a line item missing
`Amount` or `DetailType`, is rejected by schema validation with zero
outbound calls; for a validated payload, an upstream status other than
200/201 yields `{error: <raw body>}` and a 200/201 returns the provider
JSON unmodified. -/
theorem claim_C7 :
    (∀ (bfields : List (String × JValue)) (file : Option JValue) (cid : JValue)
       (oracle : Oracle),
      lookupKey bfields "CustomerRef" = none →
      create_invoice_route (.obj bfields) file cid oracle = .ok (.invalid, [])) ∧
    (∀ (bfields lfields : List (String × JValue)) (file : Option JValue) (cid : JValue)
       (oracle : Oracle),
      lookupKey bfields "Line" = some (.arr [.obj lfields]) →
      (lookupKey lfields "Amount" = none ∨ lookupKey lfields "DetailType" = none) →
      create_invoice_route (.obj bfields) file cid oracle = .ok (.invalid, [])) ∧
    (∀ (m : InvoiceCreateModel) (file : Option JValue) (cid : JValue) (oracle : Oracle)
       (qb : QuickBooksClient),
      get_qb_client (load_tokens file) cid = .ok (some qb) →
      (oracle (.createInvoice qb.realm_id (invoiceCreateDict m))).status_code ≠ 200 →
      (oracle (.createInvoice qb.realm_id (invoiceCreateDict m))).status_code ≠ 201 →
      create_invoice m file cid oracle =
        .ok (errObj (oracle (.createInvoice qb.realm_id (invoiceCreateDict m))).text,
             [.createInvoice qb.realm_id (invoiceCreateDict m)])) ∧
    (∀ (m : InvoiceCreateModel) (file : Option JValue) (cid : JValue) (oracle : Oracle)
       (qb : QuickBooksClient),
      get_qb_client (load_tokens file) cid = .ok (some qb) →
      ((oracle (.createInvoice qb.realm_id (invoiceCreateDict m))).status_code = 200 ∨
       (oracle (.createInvoice qb.realm_id (invoiceCreateDict m))).status_code = 201) →
      create_invoice m file cid oracle =
        .ok ((oracle (.createInvoice qb.realm_id (invoiceCreateDict m))).json,
             [.createInvoice qb.realm_id (invoiceCreateDict m)])) := by
  refine ⟨?_, ?_, ?_, ?_⟩
  · intro bfields file cid oracle h
    simp [create_invoice_route, parseInvoiceCreate, h]
  · intro bfields lfields file cid oracle hl hbad
    simp [create_invoice_route,
          parseInvoiceCreate_badLine bfields lfields hl (parseLineDetail_missing lfields hbad)]
  · intro m file cid oracle qb h h200 h201
    simp [create_invoice, h, h200, h201, exceptOkBind, exceptPure]
  · intro m file cid oracle qb h hs
    rcases hs with hs | hs <;> simp [create_invoice, h, hs, exceptOkBind, exceptPure]

/-- Concrete instances of `claim_C7`: a body without `CustomerRef` and a
body whose single line lacks `Amount` are both rejected with no calls; a
validated model hits a 400 and surfaces the raw body, and a 201 passes
the provider JSON through. -/
theorem claim_C7_witness :
    create_invoice_route (.obj [("Line", .arr [])]) none .null
        (fun _ => ⟨500, "", .null⟩) = .ok (.invalid, []) ∧
    create_invoice_route
        (.obj [("CustomerRef", .obj [("value", .str "1")]),
               ("Line", .arr [.obj [("DetailType", .str "S")]])]) none .null
        (fun _ => ⟨500, "", .null⟩) = .ok (.invalid, []) ∧
    create_invoice (⟨[("value", .str "1")],
                     [⟨100, "SalesItemLineDetail", none⟩], none, none, none⟩)
        (some (.obj [("access_token", .str "tok"), ("realmId", .str "R")])) .null
        (fun _ => ⟨400, "bad", .null⟩) =
      .ok (errObj "bad",
           [.createInvoice (.str "R")
              (invoiceCreateDict ⟨[("value", .str "1")],
                 [⟨100, "SalesItemLineDetail", none⟩], none, none, none⟩)]) ∧
    create_invoice (⟨[("value", .str "1")],
                     [⟨100, "SalesItemLineDetail", none⟩], none, none, none⟩)
        (some (.obj [("access_token", .str "tok"), ("realmId", .str "R")])) .null
        (fun _ => ⟨201, "", .obj [("Invoice", .str "made")]⟩) =
      .ok (.obj [("Invoice", .str "made")],
           [.createInvoice (.str "R")
              (invoiceCreateDict ⟨[("value", .str "1")],
                 [⟨100, "SalesItemLineDetail", none⟩], none, none, none⟩)]) :=
  ⟨claim_C7.1 [("Line", .arr [])] none .null (fun _ => ⟨500, "", .null⟩) rfl,
   claim_C7.2.1 [("CustomerRef", .obj [("value", .str "1")]),
                 ("Line", .arr [.obj [("DetailType", .str "S")]])]
      [("DetailType", .str "S")] none .null (fun _ => ⟨500, "", .null⟩) rfl (Or.inl rfl),
   claim_C7.2.2.1 ⟨[("value", .str "1")], [⟨100, "SalesItemLineDetail", none⟩],
                   none, none, none⟩
      (some (.obj [("access_token", .str "tok"), ("realmId", .str "R")])) .null
      (fun _ => ⟨400, "bad", .null⟩) ⟨.str "tok", .str "R"⟩ rfl
      (by decide) (by decide),
   claim_C7.2.2.2 ⟨[("value", .str "1")], [⟨100, "SalesItemLineDetail", none⟩],
                   none, none, none⟩
      (some (.obj [("access_token", .str "tok"), ("realmId", .str "R")])) .null
      (fun _ => ⟨201, "", .obj [("Invoice", .str "made")]⟩) ⟨.str "tok", .str "R"⟩ rfl
      (Or.inr rfl)⟩

/-- C10: the joined handler is not total over well-formed upstream JSON —
a customer record without an `"Id"` key raises `KeyError` while building
the lookup; a matched customer whose `PrimaryEmailAddr` is present but
null, and an invoice line whose `SalesItemLineDetail` is present but
null, raise `AttributeError` (present-with-null is not treated like a
missing key). -/
theorem claim_C10 :
    customer_invoices (some (.obj [("access_token", .str "tok"), ("realmId", .str "R")]))
        .null
        (queryOracle
          ⟨200, "", .obj [("QueryResponse", .obj [("Customer",
             .arr [.obj [("DisplayName", .str "A")]])])]⟩
          ⟨200, "", .obj [("QueryResponse", .obj [("Invoice", .arr [])])]⟩) =
      .error "KeyError" ∧
    customer_invoices (some (.obj [("access_token", .str "tok"), ("realmId", .str "R")]))
        .null
        (queryOracle
          ⟨200, "", .obj [("QueryResponse", .obj [("Customer",
             .arr [.obj [("Id", .str "1"), ("DisplayName", .str "A"),
                         ("PrimaryEmailAddr", .null)]])])]⟩
          ⟨200, "", .obj [("QueryResponse", .obj [("Invoice",
             .arr [.obj [("CustomerRef", .obj [("value", .str "1")])]])])]⟩) =
      .error "AttributeError: get" ∧
    customer_invoices (some (.obj [("access_token", .str "tok"), ("realmId", .str "R")]))
        .null
        (queryOracle
          ⟨200, "", .obj [("QueryResponse", .obj [("Customer", .arr [])])]⟩
          ⟨200, "", .obj [("QueryResponse", .obj [("Invoice",
             .arr [.obj [("Line", .arr [.obj [("SalesItemLineDetail", .null),
                                              ("DetailType", .str "X"),
                                              ("Amount", .num 1)]])]])])]⟩) =
      .error "AttributeError: get" :=
  ⟨rfl, rfl, rfl⟩
